import Mathlib

/-!
# Verification of the Atlas-Quant data plane against its specification

Shallow embedding of the checkpointed ingestion loops, the order-flow
normalizer, the archival manager, the tick storage layer and the order-book
replayer of the repository (`backend/scheduler.py`,
`backend/services/fetcher.py`, `backend/services/order_flow/{manager,
processor, storage, replayer}.py`).

Modelling conventions:
* instants are UTC times in whole seconds as `Int` (microseconds as `Int`
  where sub-second resolution matters, stated locally);
* decimal quantities (`decimal.Decimal`) are `ℚ`;
* the database tables touched by a function are threaded explicitly as
  values; the network and the candle-SQL aggregation are abstracted as
  function parameters, so every theorem quantifies over their behaviour.
-/

namespace AtlasQuant

/-! ## Candle pipeline (`backend/scheduler.py`, `kline_job_function`)

The per-area chunk loop steps a pointer from `start_dt` to `safe_end_dt`
in 6-hour (21600 s) chunks; after calling `generate_1min_candles` on a
chunk it unconditionally calls `update_kline_progress(db, area, batch_end)`
and then `db.commit()`. -/

/-- Database state seen by one area of the candle pipeline: the candle
table (abstract, type `α`), the `KlineGenState.last_generated_time`
checkpoint, and the value the checkpoint had at each `db.commit()` (the
commit trace, newest last). -/
structure KlineDb (α : Type) where
  candles : α
  checkpoint : Int
  commits : List Int
deriving Repr

/-- `update_kline_progress` (`backend/scheduler.py` lines 58-69): set
`KlineGenState.last_generated_time` to the given timestamp; no commit. -/
def updateKlineProgress {α : Type} (db : KlineDb α) (timestamp : Int) : KlineDb α :=
  { db with checkpoint := timestamp }

/-- `db.commit()`: append the current checkpoint value to the commit trace. -/
def commitKline {α : Type} (db : KlineDb α) : KlineDb α :=
  { db with commits := db.commits ++ [db.checkpoint] }

/-- The chunk ends `min (cur + 6h) safe_end` produced by the
`while current_pointer < safe_end_dt` loop of `kline_job_function`. -/
def klineChunkEnds (cur safeEnd : Int) : List Int :=
  if _h : cur < safeEnd then
    min (cur + 21600) safeEnd :: klineChunkEnds (min (cur + 21600) safeEnd) safeEnd
  else []
termination_by (safeEnd - cur).toNat
decreasing_by omega

/-- The chunk loop of `kline_job_function` (`backend/scheduler.py` lines
107-129).  `gen from to candles` models `generate_1min_candles(db, area,
from, to)`: it returns the number of candle rows produced and the updated
candle table. -/
def klineLoop {α : Type} (gen : Int → Int → α → Nat × α)
    (cur safeEnd : Int) (db : KlineDb α) : KlineDb α :=
  if _h : cur < safeEnd then
    let batchEnd := min (cur + 21600) safeEnd
    let res := gen cur batchEnd db.candles
    let db1 := updateKlineProgress { db with candles := res.2 } batchEnd
    klineLoop gen batchEnd safeEnd (commitKline db1)
  else db
termination_by (safeEnd - cur).toNat
decreasing_by omega

end AtlasQuant

namespace AtlasQuant

theorem klineLoop_commits {α : Type} (gen : Int → Int → α → Nat × α)
    (cur safeEnd : Int) (db : KlineDb α) :
    (klineLoop gen cur safeEnd db).commits = db.commits ++ klineChunkEnds cur safeEnd := by
  rw [klineLoop, klineChunkEnds]
  split
  · rw [klineLoop_commits]
    simp [commitKline, updateKlineProgress]
  · simp
termination_by (safeEnd - cur).toNat
decreasing_by omega

/-! ## Trade ingester (`backend/services/fetcher.py`, `sync_area_logic`)

Per-area run: a backfill loop from the checkpoint to `safe_line = now − 2h`
in 12-hour (43200 s) chunks, advancing `FetchState.last_fetched_time` on
each successful chunk and aborting the run on failure; then an
active-window loop from `safe_line` to `now + 48h` that upserts trades but
never passes `last_time` to `update_fetch_state`; finally an unconditional
`update_fetch_state(db, area, status="ok")`. -/

/-- The `FetchState` row of one area (`backend/models.py` lines 41-49). -/
structure FetchStateRec where
  last_fetched_time : Option Int
  status : String
  last_error : Option String
deriving Repr, DecidableEq

/-- `update_fetch_state` (`backend/services/fetcher.py` lines 225-241):
`last_fetched_time` is assigned only when a (truthy) `last_time` is passed;
`status` is always overwritten; `last_error` is set to the error text
truncated to 500 characters when a non-empty error is passed, and cleared
to `None` otherwise. -/
def updateFetchState (st : FetchStateRec) (lastTime : Option Int)
    (status : String) (error : Option String) : FetchStateRec :=
  { last_fetched_time :=
      match lastTime with
      | some t => some t
      | none => st.last_fetched_time
    status := status
    last_error :=
      match error with
      | some e => if e = "" then none else some (e.take 500)
      | none => none }

/-- Cold-start checkpoint `INITIAL_START_DATE = "2025-01-01T00:00:00Z"`
(`backend/services/fetcher.py` line 27), as epoch seconds. -/
def initialStartDate : Int := 1735689600

/-- The backfill phase of `sync_area_logic` (lines 280-310).  `bOk s e`
tells whether the chunk `[s, e)` fetches and stores without raising, and
`bMsg s e` is the exception text when it does raise.  Returns the
`FetchState` row and `some cursor` when the phase completed (reached
`safe_line`), or `none` when a chunk failed and the run returned early. -/
def backfillLoop (bOk : Int → Int → Bool) (bMsg : Int → Int → String)
    (safeLine : Int) (st : FetchStateRec) (curr : Int) :
    FetchStateRec × Option Int :=
  if _h : curr < safeLine then
    let chunkEnd := min (curr + 43200) safeLine
    if bOk curr chunkEnd then
      backfillLoop bOk bMsg safeLine
        (updateFetchState st (some chunkEnd) "running" none) chunkEnd
    else
      (updateFetchState st none "error" (some (bMsg curr chunkEnd)), none)
  else (st, some curr)
termination_by (safeLine - curr).toNat
decreasing_by omega

/-- The active-window phase of `sync_area_logic` (lines 319-350): same
12-hour stepping up to `future_limit = now + 48h`; a chunk failure records
`status="warning"` with the error text and breaks out of the loop.  No
call in this phase passes `last_time`. -/
def activeLoop (aOk : Int → Int → Bool) (aMsg : Int → Int → String)
    (futureLimit : Int) (st : FetchStateRec) (curr : Int) : FetchStateRec :=
  if _h : curr < futureLimit then
    let chunkEnd := min (curr + 43200) futureLimit
    if aOk curr chunkEnd then
      activeLoop aOk aMsg futureLimit st chunkEnd
    else
      updateFetchState st none "warning"
        (some ("Active window error: " ++ aMsg curr chunkEnd))
  else st
termination_by (futureLimit - curr).toNat
decreasing_by omega

/-- `sync_area_logic` (`backend/services/fetcher.py` lines 245-353) for one
area: resolve the starting checkpoint (stored value, else the cold-start
date), run the backfill phase, and unless it aborted, run the active
window followed by the unconditional final `status="ok"` update. -/
def syncAreaLogic (bOk aOk : Int → Int → Bool) (bMsg aMsg : Int → Int → String)
    (now : Int) (initial : Option FetchStateRec) : FetchStateRec :=
  let st0 := initial.getD { last_fetched_time := none, status := "idle", last_error := none }
  let archived := st0.last_fetched_time.getD initialStartDate
  let safeLine := now - 7200
  let futureLimit := now + 172800
  match backfillLoop bOk bMsg safeLine st0 archived with
  | (st1, none) => st1
  | (st1, some curr) =>
    updateFetchState (activeLoop aOk aMsg futureLimit st1 curr) none "ok" none

theorem activeLoop_last_fetched (aOk : Int → Int → Bool)
    (aMsg : Int → Int → String) (futureLimit : Int) (st : FetchStateRec)
    (curr : Int) :
    (activeLoop aOk aMsg futureLimit st curr).last_fetched_time =
      st.last_fetched_time := by
  rw [activeLoop]
  split
  · dsimp only
    split
    · rw [activeLoop_last_fetched]
    · rfl
  · rfl
termination_by (futureLimit - curr).toNat
decreasing_by omega

theorem backfillLoop_last_fetched (bOk : Int → Int → Bool)
    (bMsg : Int → Int → String) (safeLine : Int) (st : FetchStateRec)
    (curr : Int) :
    (backfillLoop bOk bMsg safeLine st curr).1.last_fetched_time =
        st.last_fetched_time ∨
      ∃ t, (backfillLoop bOk bMsg safeLine st curr).1.last_fetched_time =
          some t ∧ t ≤ safeLine := by
  rw [backfillLoop]
  split
  · dsimp only
    split
    · rcases backfillLoop_last_fetched bOk bMsg safeLine
        (updateFetchState st (some (min (curr + 43200) safeLine)) "running" none)
        (min (curr + 43200) safeLine) with h | h
      · right
        refine ⟨min (curr + 43200) safeLine, ?_, ?_⟩
        · rw [h]; rfl
        · omega
      · right; exact h
    · left; rfl
  · left; rfl
termination_by (safeLine - curr).toNat
decreasing_by omega

/-- C3: for every trade-ingester run and every area, the active-window
phase (including the final `status="ok"` write) leaves
`FetchState.last_fetched_time` exactly as it stood at the end of the
backfill phase; moreover the backfill phase either leaves the checkpoint
untouched or sets it to a chunk end that is at most
`safe_line = now − 2h`, so only backfill chunks ending at or before
`safe_line` ever change the trade checkpoint. -/
theorem trade_checkpoint_frozen_in_active_window
    (bOk aOk : Int → Int → Bool) (bMsg aMsg : Int → Int → String)
    (now : Int) (initial : Option FetchStateRec) :
    let st0 := initial.getD { last_fetched_time := none, status := "idle", last_error := none }
    let afterBackfill :=
      (backfillLoop bOk bMsg (now - 7200) st0 (st0.last_fetched_time.getD initialStartDate)).1
    (syncAreaLogic bOk aOk bMsg aMsg now initial).last_fetched_time =
        afterBackfill.last_fetched_time ∧
      (afterBackfill.last_fetched_time = st0.last_fetched_time ∨
        ∃ t, afterBackfill.last_fetched_time = some t ∧ t ≤ now - 7200) := by
  intro st0 afterBackfill
  constructor
  · unfold syncAreaLogic
    cases hb : backfillLoop bOk bMsg (now - 7200) st0
        (st0.last_fetched_time.getD initialStartDate) with
    | mk st1 rest =>
      cases rest with
      | none =>
        simp only [hb]
        have : afterBackfill = st1 := by rw [show afterBackfill = (st1, (none : Option Int)).1 from by rw [← hb]]
        rw [this]
      | some curr =>
        simp only [hb]
        have h1 : afterBackfill = st1 := by rw [show afterBackfill = (st1, some curr).1 from by rw [← hb]]
        rw [h1]
        show (updateFetchState (activeLoop aOk aMsg (now + 172800) st1 curr)
          none "ok" none).last_fetched_time = st1.last_fetched_time
        have h2 := activeLoop_last_fetched aOk aMsg (now + 172800) st1 curr
        simpa [updateFetchState] using h2
  · exact backfillLoop_last_fetched bOk bMsg (now - 7200) st0
      (st0.last_fetched_time.getD initialStartDate)

/-- C8: a concrete trade-ingester run in which the backfill phase has
nothing to do (checkpoint already at `safe_line`) and the very first
active-window chunk fails.  The loop records `status="warning"`
(third conjunct), but the run then falls through to the unconditional
final `update_fetch_state(db, area, status="ok")`, so the state persisted
at the end of the run has `status = "ok"` and a cleared `last_error` —
contradicting the claim that the persisted status after an active-window
failure is "warning". -/
theorem active_window_failure_ends_with_status_ok :
    (syncAreaLogic (fun _ _ => true) (fun _ _ => false)
          (fun _ _ => "boom") (fun _ _ => "boom") 1000000
          (some { last_fetched_time := some 992800, status := "ok", last_error := none })).status
        = "ok" ∧
      (syncAreaLogic (fun _ _ => true) (fun _ _ => false)
          (fun _ _ => "boom") (fun _ _ => "boom") 1000000
          (some { last_fetched_time := some 992800, status := "ok", last_error := none })).last_error
        = none ∧
      (activeLoop (fun _ _ => false) (fun _ _ => "boom") 1172800
          { last_fetched_time := some 992800, status := "ok", last_error := none }
          992800).status = "warning" := by
  have hbf : backfillLoop (fun _ _ => true) (fun _ _ => "boom") (1000000 - 7200)
      { last_fetched_time := some 992800, status := "ok", last_error := none } 992800 =
      ({ last_fetched_time := some 992800, status := "ok", last_error := none }, some 992800) := by
    rw [backfillLoop]
    norm_num
  have hal : activeLoop (fun _ _ => false) (fun _ _ => "boom") 1172800
      { last_fetched_time := some 992800, status := "ok", last_error := none } 992800 =
      updateFetchState
        { last_fetched_time := some 992800, status := "ok", last_error := none }
        none "warning" (some ("Active window error: " ++ "boom")) := by
    rw [activeLoop]
    norm_num
  refine ⟨?_, ?_, ?_⟩
  · show (syncAreaLogic _ _ _ _ _ _).status = "ok"
    unfold syncAreaLogic
    simp only [Option.getD_some, Option.getD]
    rw [hbf]
    rfl
  · show (syncAreaLogic _ _ _ _ _ _).last_error = none
    unfold syncAreaLogic
    simp only [Option.getD_some, Option.getD]
    rw [hbf]
    rfl
  · rw [hal]
    rfl

/-- C1: for every area and every chunk processed by a candle-pipeline run,
when the chunk finishes the candle checkpoint
(`KlineGenState.last_generated_time`) is set to that chunk's end and
committed, regardless of whether the chunk produced any candle rows: the
commit trace of the loop is exactly the list of chunk ends — a quantity
that does not depend on the candle generator `gen` at all (so zero-trade
chunks advance the checkpoint exactly like productive ones). -/
theorem candle_checkpoint_advances_each_chunk {α : Type}
    (gen gen' : Int → Int → α → Nat × α) (cur safeEnd : Int) (db : KlineDb α) :
    (klineLoop gen cur safeEnd db).commits = db.commits ++ klineChunkEnds cur safeEnd ∧
    (klineLoop gen cur safeEnd db).commits = (klineLoop gen' cur safeEnd db).commits := by
  refine ⟨klineLoop_commits gen cur safeEnd db, ?_⟩
  rw [klineLoop_commits, klineLoop_commits]

/-! ## The `OrderFlowTick` model and the declarative constructor

`OrderFlowTick` (`backend/models.py` lines 142-182) was refactored: its
mapped columns are exactly the fourteen listed below, and the model's
own comment (line 151) records the constructor failure the old shape
produced ("tick_id is an invalid keyword argument").  `Base =
declarative_base()` (`backend/database.py` line 13) generates a
constructor that raises `TypeError("<name> is an invalid keyword
argument for OrderFlowTick")` for any keyword that is not a mapped
column, checking the keywords in call order.  Several callers still
pass keywords of the pre-refactor shape; exceptions are modelled with
`Except String`. -/

/-- The mapped columns of `OrderFlowTick` (`models.py` lines 150-182). -/
def orderFlowTickColumns : List String :=
  ["tick_id", "contract_id", "delivery_area", "revision_number", "is_snapshot",
   "order_id", "side", "price", "volume", "updated_time", "priority_time",
   "is_deleted", "root_updated_at", "created_at"]

/-- The declarative constructor's keyword check: accept when every name
is a mapped column, otherwise raise on the first invalid one. -/
def declarativeCtorCheck (kwargs : List String) : Except String Unit :=
  match kwargs.find? (fun k => !(orderFlowTickColumns.contains k)) with
  | some bad => .error (bad ++ " is an invalid keyword argument for OrderFlowTick")
  | none => .ok ()

/-- An `order_flow_ticks` row with the current column set. -/
structure OrderFlowTickRow where
  tick_id : Option String
  contract_id : Option String
  delivery_area : Option String
  revision_number : Option Nat
  is_snapshot : Bool
  order_id : Option String
  side : Option String
  price : Option ℚ
  volume : Option ℚ
  updated_time : Option Int
  priority_time : Option Int
  is_deleted : Bool
  root_updated_at : Option Int
  created_at : Option Int
deriving Repr, DecidableEq

/-! ## Order-flow normalizer — realtime endpoint
(`backend/services/order_flow/processor.py`,
`process_recent_orders_response`, lines 37-120)

Per order, revisions are sorted ascending by `revisionNumber` (missing
key defaults to 0), then walked with a running `last_remaining_vol`.
`Decimal` is modelled by `ℚ`; datetimes carry microsecond resolution, so
`(updated − created).total_seconds() < 0.2` is modelled as the exact
integer comparison `updatedUs − createdUs < 200000` (the spacing of
microsecond values, 1e-6, is far larger than the double rounding error of
`0.2`, so the float comparison agrees with the exact one at every
representable input). -/

/-- One element of an order's `revisions` array as read by
`process_recent_orders_response`: `rev.get("action", "None")`,
`rev.get("volume", 0)` fed to `_to_decimal` (absent/None becomes 0),
`rev.get("revisionNumber")`. -/
structure RtRev where
  revisionNumber : Option Nat
  action : String
  volume : Option ℚ
  updatedTimeUs : Option Int
deriving Repr, DecidableEq

/-- `_map_action_to_type` (`processor.py` lines 223-228). -/
def mapActionToType (action : String) : Option String :=
  if action = "PartialExecution" ∨ action = "FullExecution" then some "TRADE"
  else if action = "UserAdded" then some "NEW"
  else if action = "UserDeleted" ∨ action = "SystemDeleted" ∨
      action = "UserHibernated" ∨ action = "SystemHibernated" then some "CANCEL"
  else if action = "UserModified" ∨ action = "SystemModified" then some "UPDATE"
  else none

/-- Sort key of the revision sort: `x.get("revisionNumber", 0)`. -/
def revKey (r : RtRev) : Nat := r.revisionNumber.getD 0

/-- The keyword names `process_recent_orders_response` passes to
`OrderFlowTick` (`processor.py` lines 100-117), in call order;
`contract_name`, `delivery_start`, `delivery_end`, `timestamp`,
`remaining_volume`, `type`, `raw_action` and `aggressor_side` are not
columns of the refactored model. -/
def recentOrdersKwargs : List String :=
  ["tick_id", "contract_id", "contract_name", "delivery_area", "delivery_start",
   "delivery_end", "timestamp", "price", "volume", "remaining_volume", "side",
   "type", "raw_action", "aggressor_side", "order_id", "revision_number"]

/-- The per-revision walk of `process_recent_orders_response` (lines
59-118), projected to the `calculated_volume` of each emitted tick: skip
`action ∈ {None, Unknown}` and unmapped actions; NEW takes the current
remaining volume, TRADE/CANCEL/UPDATE take `max(0, last_remaining −
current)` when `last_remaining` is known and `0` otherwise, both
updating `last_remaining` (lines 73-84); the revision then computes the
aggressor and the deterministic tick id (lines 86-98) and finally
constructs the `OrderFlowTick` (line 100) — whose keyword check fails,
aborting the whole parse with `TypeError`. -/
def deltaWalkE : List RtRev → Option ℚ → Except String (List ℚ)
  | [], _ => .ok []
  | r :: rest, last =>
    if r.action = "None" ∨ r.action = "Unknown" then deltaWalkE rest last
    else
      match mapActionToType r.action with
      | none => deltaWalkE rest last
      | some ty =>
        let current := r.volume.getD 0
        let calculated : ℚ :=
          if ty = "NEW" then current
          else if ty = "TRADE" ∨ ty = "CANCEL" ∨ ty = "UPDATE" then
            match last with
            | some l => max 0 (l - current)
            | none => 0
          else 0
        let last1 :=
          if ty = "NEW" ∨ ty = "TRADE" ∨ ty = "CANCEL" ∨ ty = "UPDATE" then
            some current
          else last
        match declarativeCtorCheck recentOrdersKwargs with
        | .error e => .error e
        | .ok _ =>
          match deltaWalkE rest last1 with
          | .error e => .error e
          | .ok ds => .ok (calculated :: ds)

/-- `process_recent_orders_response` for one order: sort the revisions
by revision number (Python `list.sort`, stable — modelled by the stable
`List.insertionSort`), then walk with `last_remaining_vol = None`. -/
def processRecentOrderDeltas (revs : List RtRev) : Except String (List ℚ) :=
  deltaWalkE (List.insertionSort (fun a b => revKey a ≤ revKey b) revs) none

/-- The synthetic revision sequence of the claim:
`[NEW(v=10), Partial(v=6), Partial(v=2), Full(v=0)]`. -/
def c6Example : List RtRev :=
  [{ revisionNumber := some 1, action := "UserAdded", volume := some 10, updatedTimeUs := some 0 },
   { revisionNumber := some 2, action := "PartialExecution", volume := some 6, updatedTimeUs := some 1000000 },
   { revisionNumber := some 3, action := "PartialExecution", volume := some 2, updatedTimeUs := some 2000000 },
   { revisionNumber := some 4, action := "FullExecution", volume := some 0, updatedTimeUs := some 3000000 }]

/-- C6: the realtime normalizer cannot emit a single delta.  On the
claim's own synthetic sequence `[NEW(v=10), Partial(v=6), Partial(v=2),
Full(v=0)]` the parse raises `TypeError("contract_name is an invalid
keyword argument for OrderFlowTick")` while constructing the very first
tick — the delta rule of lines 73-84 is implemented exactly as the claim
describes, but the constructor call at line 100 still passes the
pre-refactor keywords — so no delta list, in particular not
`[10, 4, 4, 2]`, is ever produced. -/
theorem delta_normalizer_raises_type_error :
    processRecentOrderDeltas c6Example =
        .error "contract_name is an invalid keyword argument for OrderFlowTick" ∧
      ∀ ds : List ℚ, processRecentOrderDeltas c6Example ≠ .ok ds := by
  have h1 : processRecentOrderDeltas c6Example =
      .error "contract_name is an invalid keyword argument for OrderFlowTick" := rfl
  refine ⟨h1, ?_⟩
  intro ds h
  rw [h1] at h
  exact Except.noConfusion h

/-! ## Aggressor inference (`processor.py` lines 86-93) -/

/-- The `aggressor_side` computation of `process_recent_orders_response`:
starts as "NONE"; only when the tick is a TRADE and both `createdTime`
and `updatedTime` parsed does it compare
`(updated − created).total_seconds() < 0.2` (here: microseconds
`< 200000`), taking the order's own side below the threshold and the
flipped side (`"SELL" if side == "BUY" else "BUY"`) otherwise. -/
def aggressorSide (tickType : String) (createdUs updatedUs : Option Int)
    (side : String) : String :=
  match createdUs, updatedUs with
  | some c, some u =>
    if tickType = "TRADE" then
      if u - c < 200000 then side
      else if side = "BUY" then "SELL" else "BUY"
    else "NONE"
  | _, _ => "NONE"

/-- The opposite side, as the claim means it (only BUY and SELL occur). -/
def oppositeSide : String → String
  | "BUY" => "SELL"
  | "SELL" => "BUY"
  | s => s

/-- C9: for every TRADE tick whose order has both a created and an updated
time, the inferred aggressor equals the order's own side when
`updated − created` is strictly below 200 ms, and the opposite side
otherwise. -/
theorem aggressor_inference (c u : Int) (side : String)
    (hside : side = "BUY" ∨ side = "SELL") :
    aggressorSide "TRADE" (some c) (some u) side =
      if u - c < 200000 then side else oppositeSide side := by
  rcases hside with h | h <;> subst h <;>
    simp [aggressorSide, oppositeSide]

/-- C9 witness: `aggressor_inference` at a concrete slow-trade input. -/
theorem aggressor_inference_witness :
    (("BUY" : String) = "BUY" ∨ ("BUY" : String) = "SELL") ∧
      aggressorSide "TRADE" (some 0) (some 250000) "BUY" =
        if (250000 : Int) - 0 < 200000 then "BUY" else oppositeSide "BUY" :=
  ⟨Or.inl rfl, aggressor_inference 0 250000 "BUY" (Or.inl rfl)⟩

/-! ## Deterministic tick identity and the realtime ingestion path

`_generate_tick_id` (`processor.py` lines 27-35) hashes
`f"{contract_id}_{delivery_area}_{revision}_{order_id}_{action}"` with
MD5.  Determinism is all that matters to the claims, so the hex digest
is modelled by the identity encoding.

`process_api_response` (`processor.py` lines 230-283) is the parser the
realtime revision stream actually uses.  It never calls
`_generate_tick_id`; worse, its `OrderFlowTick(...)` call passes the
pre-refactor keywords `timestamp`, `state`, `action` and `source_type`,
none of which are columns, so the declarative constructor raises
`TypeError` on the first revision and the parse aborts. -/

def md5Hex (s : String) : String := s

/-- `OrderFlowProcessor._generate_tick_id`. -/
def generateTickId (contractId deliveryArea revision orderId action : String) : String :=
  md5Hex (contractId ++ "_" ++ deliveryArea ++ "_" ++ revision ++ "_" ++ orderId ++ "_" ++ action)

/-- One revision of the `ByUpdatedTime` payload as `process_api_response`
reads it. -/
structure ApiRev where
  revisionNumber : Option Nat
  action : Option String
  state : Option String
  price : Option ℚ
  volume : Option ℚ
  updatedTimeUs : Option Int
  priorityTimeUs : Option Int
  isSnapshot : Bool
  deleted : Bool
deriving Repr, DecidableEq

structure ApiOrder where
  orderId : String
  side : Option String
  revisions : List ApiRev
deriving Repr, DecidableEq

structure ApiContract where
  contractId : String
  deliveryArea : Option String
  orders : List ApiOrder
deriving Repr, DecidableEq

structure ApiPayload where
  deliveryArea : Option String
  contracts : List ApiContract
deriving Repr, DecidableEq

/-- The keyword names `process_api_response` passes to `OrderFlowTick`
(`processor.py` lines 265-280), in call order; `timestamp`, `state`,
`action` and `source_type` are not columns of the refactored model. -/
def apiResponseKwargs : List String :=
  ["contract_id", "delivery_area", "timestamp", "priority_time", "order_id",
   "revision_number", "price", "volume", "side", "state", "action",
   "is_snapshot", "is_deleted", "source_type"]

/-- The `OrderFlowTick(...)` call of `process_api_response` (line 265)
for one revision: the declarative constructor vets the keywords first —
and raises on `timestamp` — so the `.ok` branch, which records the
column assignments the call names (columns it does not name keep their
defaults), is unreachable. -/
def mkApiTick (contractId : String) (area : Option String) (o : ApiOrder)
    (rev : ApiRev) : Except String OrderFlowTickRow :=
  match declarativeCtorCheck apiResponseKwargs with
  | .error e => .error e
  | .ok _ =>
    .ok { tick_id := none
          contract_id := some contractId
          delivery_area := area
          revision_number := some (rev.revisionNumber.getD 0)
          is_snapshot := rev.isSnapshot
          order_id := some o.orderId
          side := o.side
          price := rev.price
          volume := rev.volume
          updated_time := none
          priority_time := rev.priorityTimeUs
          is_deleted := rev.deleted
          root_updated_at := none
          created_at := none }

/-- The revision loop of `process_api_response` (lines 254-281): skip
revisions without an `updatedTime` (`continue` at line 257), construct a
tick for the rest; an exception propagates and aborts the parse. -/
def apiRevTicks (contractId : String) (area : Option String) (o : ApiOrder) :
    List ApiRev → Except String (List OrderFlowTickRow)
  | [] => .ok []
  | rev :: rest =>
    match rev.updatedTimeUs with
    | none => apiRevTicks contractId area o rest
    | some _ =>
      match mkApiTick contractId area o rev with
      | .error e => .error e
      | .ok t =>
        match apiRevTicks contractId area o rest with
        | .error e => .error e
        | .ok ts => .ok (t :: ts)

/-- The order loop of `process_api_response` (lines 249-281). -/
def apiOrderTicks (contractId : String) (area : Option String) :
    List ApiOrder → Except String (List OrderFlowTickRow)
  | [] => .ok []
  | o :: rest =>
    match apiRevTicks contractId area o o.revisions with
    | .error e => .error e
    | .ok ts =>
      match apiOrderTicks contractId area rest with
      | .error e => .error e
      | .ok ts2 => .ok (ts ++ ts2)

/-- The contract loop of `process_api_response` (lines 244-281); the
delivery area is the payload's, falling back to the contract's
(`data.get("deliveryArea") or contract.get("deliveryArea")`). -/
def apiContractTicks (payloadArea : Option String) :
    List ApiContract → Except String (List OrderFlowTickRow)
  | [] => .ok []
  | c :: rest =>
    match apiOrderTicks c.contractId (payloadArea.or c.deliveryArea) c.orders with
    | .error e => .error e
    | .ok ts =>
      match apiContractTicks payloadArea rest with
      | .error e => .error e
      | .ok ts2 => .ok (ts ++ ts2)

/-- `process_api_response` (`processor.py` lines 230-283), the parser of
the realtime revision stream (`manager.sync_realtime` line 248 and
`manual_backfill_range` line 280 feed its result to
`storage.save_ticks`); `source_type` only flows into the rejected
keyword list. -/
def processApiResponse (data : ApiPayload) (_sourceType : String) :
    Except String (List OrderFlowTickRow) :=
  apiContractTicks data.deliveryArea data.contracts

/-- A one-revision realtime payload. -/
def c2Payload : ApiPayload :=
  { deliveryArea := some "SE3"
    contracts :=
      [{ contractId := "C100"
         deliveryArea := none
         orders :=
           [{ orderId := "O1"
              side := some "Buy"
              revisions :=
                [{ revisionNumber := some 5
                   action := some "UserAdded"
                   state := some "Active"
                   price := some 50
                   volume := some 10
                   updatedTimeUs := some 1000000
                   priorityTimeUs := some 900000
                   isSnapshot := false
                   deleted := false }] }] }] }

/-- C2: the realtime ingestion path stores no tick at all, hash-keyed or
otherwise.  On a concrete one-revision payload, `process_api_response` —
the parser `sync_realtime` and `manual_backfill_range` feed into
`save_ticks` — raises `TypeError("timestamp is an invalid keyword
argument for OrderFlowTick")` constructing its first tick (the call at
lines 265-280 still passes the pre-refactor keywords `timestamp`,
`state`, `action`, `source_type`, and never supplies `tick_id`), so no
parse result reaches `save_ticks`, no row keyed by `_generate_tick_id`'s
deterministic hash is ever inserted, and the claimed idempotent
re-ingestion cannot take effect on this path.  An empty payload still
parses to the empty list: the failure is exactly at tick
construction. -/
theorem realtime_ingestion_raises_type_error :
    processApiResponse c2Payload "Stream" =
        .error "timestamp is an invalid keyword argument for OrderFlowTick" ∧
      (∀ ts : List OrderFlowTickRow, processApiResponse c2Payload "Stream" ≠ .ok ts) ∧
      processApiResponse { deliveryArea := some "SE3", contracts := [] } "Stream" = .ok [] := by
  have h1 : processApiResponse c2Payload "Stream" =
      .error "timestamp is an invalid keyword argument for OrderFlowTick" := rfl
  refine ⟨h1, ?_, rfl⟩
  intro ts h
  rw [h1] at h
  exact Except.noConfusion h

/-! ## Realtime revision stream window
(`backend/services/order_flow/manager.py`, `sync_realtime`, lines 228-241)

The fetch window is computed as `fetch_start = last_time −
timedelta(minutes=1)` and `fetch_end = datetime.utcnow()` — nothing else
touches these two values before `fetch_recent_orders(area, fetch_start,
fetch_end)` is called. -/

/-- The `(fetch_start, fetch_end)` pair of `sync_realtime`, from the
stored `last_realtime_time` and the current time, in epoch seconds. -/
def syncRealtimeWindow (lastRealtime now : Int) : Int × Int :=
  (lastRealtime - 60, now)

/-- C7 counterexample: with `last_realtime_time = 0` and `now = 1000000`
the stored checkpoint is far older than `now − 48h`, yet the computed
window start is `−60`: it stays strictly below `now − 48h` instead of
being reset to it, refuting the claimed clamping. -/
theorem realtime_window_counterexample :
    (syncRealtimeWindow 0 1000000).1 = -60 ∧
      (syncRealtimeWindow 0 1000000).1 < 1000000 - 172800 ∧
      (syncRealtimeWindow 0 1000000).1 ≠ 1000000 - 172800 := by
  refine ⟨rfl, by norm_num [syncRealtimeWindow], by norm_num [syncRealtimeWindow]⟩

/-- C7 (amended): in every realtime revision-stream run the fetch window
is exactly `[last_realtime_time − 1 min, now]`, with no clamping — in
particular even in the two regimes where the claim asserted a reset
(start below `now − 48h`, start beyond `now`) the start is still
`last_realtime_time − 1 min`. -/
theorem realtime_window_unclamped (lastRealtime now : Int)
    (_h : lastRealtime - 60 < now - 172800 ∨ now < lastRealtime - 60) :
    (syncRealtimeWindow lastRealtime now).1 = lastRealtime - 60 ∧
      (syncRealtimeWindow lastRealtime now).2 = now := by
  exact ⟨rfl, rfl⟩

/-- C7 witness: `realtime_window_unclamped` at the counterexample input. -/
theorem realtime_window_unclamped_witness :
    ((0 : Int) - 60 < 1000000 - 172800 ∨ (1000000 : Int) < 0 - 60) ∧
      ((syncRealtimeWindow 0 1000000).1 = 0 - 60 ∧
        (syncRealtimeWindow 0 1000000).2 = 1000000) :=
  ⟨Or.inl (by norm_num), realtime_window_unclamped 0 1000000 (Or.inl (by norm_num))⟩

/-! ## Contract archival (`storage.py` `mark_contract_archived`,
`save_contracts`; `manager.py` `sync_history_backfill`)

`order_contracts` rows are modelled with the columns the archival logic
reads and writes; `delivery_date_utc` is the midnight epoch second of the
delivery day. -/

/-- One `order_contracts` row (`backend/models.py` lines 109-141). -/
structure ContractRow where
  contract_id : String
  delivery_area : String
  delivery_date : Int
  contract_name : String
  is_archived : Bool
  updated_at : Int
deriving Repr, DecidableEq

/-- `OrderFlowService.mark_contract_archived` (`storage.py` lines 64-75):
`UPDATE order_contracts SET is_archived = true, updated_at = now() WHERE
contract_id = :cid` — the filter is on `contract_id` only, with no
`delivery_area` condition. -/
def markContractArchived (table : List ContractRow) (cid : String) (now : Int) :
    List ContractRow :=
  table.map fun r =>
    if r.contract_id = cid then { r with is_archived := true, updated_at := now } else r

/-- C10: `mark_contract_archived(cid)` sets `is_archived = true` (and
refreshes `updated_at`) on **every** row whose `contract_id` matches —
the filter carries no delivery-area condition, so rows of other delivery
areas with the same `contract_id` are archived too — leaves non-matching
rows untouched, and modifies no column other than `is_archived` and
`updated_at`. -/
theorem mark_contract_archived_all_areas (table : List ContractRow)
    (cid : String) (now : Int) (i : Nat) (r : ContractRow)
    (h : table[i]? = some r) :
    ∃ r', (markContractArchived table cid now)[i]? = some r' ∧
      (r.contract_id = cid → r'.is_archived = true ∧ r'.updated_at = now) ∧
      (r.contract_id ≠ cid → r' = r) ∧
      r'.contract_id = r.contract_id ∧ r'.delivery_area = r.delivery_area ∧
      r'.delivery_date = r.delivery_date ∧ r'.contract_name = r.contract_name := by
  refine ⟨if r.contract_id = cid then { r with is_archived := true, updated_at := now } else r, ?_, ?_, ?_, ?_⟩
  · rw [markContractArchived, List.getElem?_map, h]
    rfl
  · intro hc; simp [hc]
  · intro hc; simp [hc]
  · by_cases hc : r.contract_id = cid <;> simp [hc]

/-- A contract that exists in two delivery areas at once: the SE3 copy. -/
def c10RowSE3 : ContractRow :=
  { contract_id := "C1", delivery_area := "SE3", delivery_date := 0,
    contract_name := "n", is_archived := false, updated_at := 0 }

/-- The SE4 copy of the same contract. -/
def c10RowSE4 : ContractRow :=
  { contract_id := "C1", delivery_area := "SE4", delivery_date := 0,
    contract_name := "n", is_archived := false, updated_at := 0 }

/-- C10 witness: a two-row table holding the same `contract_id` in two
delivery areas; `mark_contract_archived` archives the row of the *other*
area as well. -/
theorem mark_contract_archived_all_areas_witness :
    ([c10RowSE3, c10RowSE4] : List ContractRow)[1]? = some c10RowSE4 ∧
    ∃ r', (markContractArchived [c10RowSE3, c10RowSE4] "C1" 7)[1]? = some r' ∧
      (c10RowSE4.contract_id = "C1" → r'.is_archived = true ∧ r'.updated_at = 7) ∧
      (c10RowSE4.contract_id ≠ "C1" → r' = c10RowSE4) ∧
      r'.contract_id = c10RowSE4.contract_id ∧
      r'.delivery_area = c10RowSE4.delivery_area ∧
      r'.delivery_date = c10RowSE4.delivery_date ∧
      r'.contract_name = c10RowSE4.contract_name :=
  ⟨rfl, mark_contract_archived_all_areas [c10RowSE3, c10RowSE4] "C1" 7 1 c10RowSE4 rfl⟩

/-! ## Historical archival (`manager.py`, `sync_history_backfill`)

`sync_history_backfill` (lines 105-225) aligns `last_archived_time` to
midnight, returns untouched when the pointer has reached
`archive_limit = now − 48h`, and otherwise enters the day loop — whose
body immediately calls

  `contracts_meta = self.processor.process_contracts_response(contract_resp)`

(line 150).  `OrderFlowProcessor`, fully present in `processor.py`,
defines no `process_contracts_response`, so this attribute lookup raises
`AttributeError` on every iteration; the `except` at line 154 logs it
and `break`s out of the loop.  No pending query runs, no worker is
dispatched, no contract row is touched, and `_update_state` is never
reached: the run always returns with the `order_contracts` table and
`last_archived_time` exactly as they were. -/

/-- `curr.replace(hour=0, minute=0, second=0, microsecond=0)`: floor an
instant to the midnight of its UTC day. -/
def alignMidnight (t : Int) : Int := t - t % 86400

/-- One run of `sync_history_backfill` for an area: the
`curr >= archive_limit` guard, then the day loop, which breaks on its
first iteration at the missing `process_contracts_response` (line 150)
with every row and the sync state untouched. -/
def syncHistoryBackfill (now lastArchived : Int) (table : List ContractRow) :
    List ContractRow × Int :=
  let archiveLimit := now - 172800
  let curr := alignMidnight lastArchived
  if archiveLimit ≤ curr then (table, lastArchived)
  else (table, lastArchived)

/-- A contract of day 0 in area SE3 that is already archived. -/
def c4ArchivedRow : ContractRow :=
  { contract_id := "C1", delivery_area := "SE3", delivery_date := 0,
    contract_name := "n", is_archived := true, updated_at := 0 }

/-- C4: the archival day pointer can never advance.  Every run returns
the table and `last_archived_time` unchanged (first conjunct), because
the day loop dies on the missing `process_contracts_response` before
touching anything.  The claim's "unchanged when some contract failed to
archive" half therefore holds only degenerately, and its "advances by
exactly one day when all contracts of the day are archived" half is
false of the program: with `last_archived_time = 0` (midnight-aligned),
`now` one second past the archive limit and the day's single contract
already archived, the pointer stays `0` instead of advancing to
`86400`. -/
theorem archival_day_pointer_never_advances :
    (∀ (now lastArchived : Int) (table : List ContractRow),
        syncHistoryBackfill now lastArchived table = (table, lastArchived)) ∧
      (syncHistoryBackfill 172801 0 [c4ArchivedRow]).2 = 0 ∧
      (syncHistoryBackfill 172801 0 [c4ArchivedRow]).2 ≠ 0 + 86400 := by
  refine ⟨?_, by decide, by decide⟩
  intro now lastArchived table
  unfold syncHistoryBackfill
  dsimp only
  split <;> rfl

/-! ## Order-book replayer
(`backend/services/order_flow/replayer.py`, `get_order_book_at`)

The replayer targets the pre-refactor tick shape: its query (lines
25-34) filters on `OrderFlowTick.timestamp` and orders by it, and
`_apply_tick` further reads `tick.type` and `tick.raw_action` — none of
which exist on the current model (`models.py` lines 142-182; the time
column is `updated_time`).  Evaluating a nonexistent attribute on the
mapped class raises `AttributeError` while the query is being built,
before a single row is loaded, so every call of `get_order_book_at`
aborts and no book — ordered or otherwise — is ever returned. -/

/-- The mapped-class attributes the tick query of `get_order_book_at`
references (`replayer.py` lines 27-32), in evaluation order:
`OrderFlowTick.contract_id == contract_id`,
`OrderFlowTick.timestamp <= target_time`, then the two `order_by` keys. -/
def replayerQueryAttrs : List String :=
  ["contract_id", "timestamp", "revision_number"]

/-- The exception `get_order_book_at(contract_id, target_time)` raises
while constructing its tick query — the first referenced attribute that
is not a mapped column of `OrderFlowTick` (a `none` result would mean
the query builds and the replay fold would run).  The arguments do not
enter the lookup, which is why the failure is universal. -/
def getOrderBookAtRaises (_contractId : String) (_targetTime : Int) : Option String :=
  (replayerQueryAttrs.find? fun a => !(orderFlowTickColumns.contains a)).map
    fun bad => "type object OrderFlowTick has no attribute " ++ bad

/-- C5: the replayer can return no book.  For every contract and every
target time, `get_order_book_at` raises
`AttributeError("type object OrderFlowTick has no attribute timestamp")`
while building its tick query — `timestamp` is not a column of the
refactored model, whose time column is `updated_time` — so the claimed
sortedness and disjointness of "the book returned by the replayer" are
never realised: there is no returned book. -/
theorem replayer_query_raises_attribute_error :
    ∀ (contractId : String) (targetTime : Int),
      getOrderBookAtRaises contractId targetTime =
          some "type object OrderFlowTick has no attribute timestamp" ∧
        orderFlowTickColumns.contains "timestamp" = false ∧
        orderFlowTickColumns.contains "updated_time" = true := by
  intro contractId targetTime
  exact ⟨rfl, rfl, rfl⟩

end AtlasQuant
